import Mathlib

/-!
Verification of the DiscordHooks embed module (embed.py).

This file is a shallow embedding of the value classes of the source:
EmbedFooter, EmbedImage, EmbedThumbnail, EmbedVideo, EmbedProvider,
EmbedAuthor, EmbedField and Embed, together with their validating
property setters, their constructors (which run every setter in source
order), the inherited BaseSerializable.dict serialization and the
from_dict factories.  Dynamic (Python) values are modelled by the
inductive type PyVal; raised exceptions are modelled by Except PyErr,
where PyErr.typeError stands for TypeError and PyErr.valueError for
ValueError.  Mappings are association lists in declaration order, as
produced by the dict comprehension in BaseSerializable.dict.
-/

/-- The two exception kinds raised by the source: TypeError and ValueError. -/
inductive PyErr where
  | typeError
  | valueError
  deriving DecidableEq, Repr

/-- EmbedFooter: slots _text and _icon_url (embed.py lines 54-108). -/
structure EmbedFooter where
  text : Option String
  icon_url : Option String
  deriving DecidableEq, Repr

/-- EmbedImage: slot _url (embed.py lines 111-149). -/
structure EmbedImage where
  url : Option String
  deriving DecidableEq, Repr

/-- EmbedVideo: slots _url, _height, _width (embed.py lines 152-219). -/
structure EmbedVideo where
  url : Option String
  height : Option Int
  width : Option Int
  deriving DecidableEq, Repr

/-- EmbedThumbnail: slot _url (embed.py lines 222-260). -/
structure EmbedThumbnail where
  url : Option String
  deriving DecidableEq, Repr

/-- EmbedProvider: slots _name and _url (embed.py lines 263-316). -/
structure EmbedProvider where
  name : Option String
  url : Option String
  deriving DecidableEq, Repr

/-- EmbedAuthor: slots _name, _url, _icon_url (embed.py lines 319-387). -/
structure EmbedAuthor where
  name : Option String
  url : Option String
  icon_url : Option String
  deriving DecidableEq, Repr

/-- EmbedField: slots _name and _value (embed.py lines 390-446). -/
structure EmbedField where
  name : Option String
  value : Option String
  deriving DecidableEq, Repr

/-- Embed: slots in the order of Embed.__items__ (embed.py lines 449-503).
The _fields slot is a list, never None: the fields setter normalizes None
to the empty list and only ever stores EmbedField elements. -/
structure Embed where
  title : Option String
  description : Option String
  url : Option String
  timestamp : Option Int
  color : Option Int
  footer : Option EmbedFooter
  image : Option EmbedImage
  thumbnail : Option EmbedThumbnail
  video : Option EmbedVideo
  provider : Option EmbedProvider
  author : Option EmbedAuthor
  fields : List EmbedField
  deriving DecidableEq, Repr

/-- Dynamic Python values as far as the source manipulates them:
None, str, int, datetime (kept opaque as an integer tag), the leaf
record objects, lists and dict mappings. -/
inductive PyVal where
  | none
  | str (s : String)
  | int (n : Int)
  | datetime (t : Int)
  | footer (f : EmbedFooter)
  | image (i : EmbedImage)
  | thumbnail (t : EmbedThumbnail)
  | video (v : EmbedVideo)
  | provider (p : EmbedProvider)
  | author (a : EmbedAuthor)
  | field (f : EmbedField)
  | list (l : List PyVal)
  | mapping (m : List (String × PyVal))

/-- Whether a dynamic value is a dict mapping. -/
def PyVal.isMapping : PyVal → Bool
  | PyVal.mapping _ => true
  | _ => false

/-- An optional string slot read back as a dynamic value (getattr). -/
def pyOfStr : Option String → PyVal
  | Option.none => PyVal.none
  | some s => PyVal.str s

/-- An optional int slot read back as a dynamic value (getattr). -/
def pyOfInt : Option Int → PyVal
  | Option.none => PyVal.none
  | some n => PyVal.int n

/-- An optional datetime slot read back as a dynamic value (getattr). -/
def pyOfDatetime : Option Int → PyVal
  | Option.none => PyVal.none
  | some t => PyVal.datetime t

/-- First value stored under a key in an association list (dict access). -/
def lookupKey (k : String) : List (String × PyVal) → Option PyVal
  | [] => Option.none
  | (k2, v) :: rest => if k2 = k then some v else lookupKey k rest

/-- The filter of BaseSerializable.dict: a value is kept iff it is not None. -/
def pyOptVal : PyVal → Option PyVal
  | PyVal.none => Option.none
  | v => some v

/-- BaseSerializable.dict (embed.py lines 35-38): iterate __items__ in
order and keep every attribute whose value is not None. -/
def pyDict (get : String → PyVal) : List String → List (String × PyVal)
  | [] => []
  | k :: rest =>
    match pyOptVal (get k) with
    | Option.none => pyDict get rest
    | some v => (k, v) :: pyDict get rest

/-- Keyword-argument extraction for from_dict: the value stored under a
key, or None when the key is missing (the default of every parameter). -/
def getArg (obj : List (String × PyVal)) (k : String) : PyVal :=
  (lookupKey k obj).getD PyVal.none

/-- Keyword-argument acceptance: Python rejects a call with a keyword
that is not a declared parameter name (TypeError, unexpected keyword). -/
def keysAllowed (allowed : List String) : List (String × PyVal) → Bool
  | [] => true
  | (k, _) :: rest => decide (k ∈ allowed) && keysAllowed allowed rest

/-- The string setters of the source that carry no length check
(icon_url and url setters): None and any str are accepted, everything
else raises TypeError. -/
def setStrNoLimit : PyVal → Except PyErr (Option String)
  | PyVal.none => .ok Option.none
  | PyVal.str s => .ok (some s)
  | _ => .error PyErr.typeError

/-- The string setters whose length check is not guarded by presence
(EmbedFooter.text, EmbedAuthor.name, EmbedField.name, EmbedField.value):
for None the isinstance check passes but Python then evaluates
len(None), which raises TypeError. -/
def setStrHardLen (limit : Nat) : PyVal → Except PyErr (Option String)
  | PyVal.none => .error PyErr.typeError
  | PyVal.str s => if limit < s.length then .error PyErr.valueError else .ok (some s)
  | _ => .error PyErr.typeError

/-- The string setters whose length check is guarded by an isinstance
test (Embed.title, Embed.description): None is accepted and clears. -/
def setStrSoftLen (limit : Nat) : PyVal → Except PyErr (Option String)
  | PyVal.none => .ok Option.none
  | PyVal.str s => if limit < s.length then .error PyErr.valueError else .ok (some s)
  | _ => .error PyErr.typeError

/-- The int setters (EmbedVideo.height, EmbedVideo.width, Embed.color):
None and any int are accepted, everything else raises TypeError.
There is no sign or range check in the source. -/
def setIntAttr : PyVal → Except PyErr (Option Int)
  | PyVal.none => .ok Option.none
  | PyVal.int n => .ok (some n)
  | _ => .error PyErr.typeError

/-- The Embed.timestamp setter: None or a datetime, else TypeError. -/
def setDatetimeAttr : PyVal → Except PyErr (Option Int)
  | PyVal.none => .ok Option.none
  | PyVal.datetime t => .ok (some t)
  | _ => .error PyErr.typeError

/-- EmbedFooter.__items__ (embed.py line 62). -/
def EmbedFooter.items : List String := ["text", "icon_url"]

/-- EmbedFooter.text setter (embed.py lines 79-85): unguarded length
check, so assigning None raises TypeError via len(None). -/
def EmbedFooter.setText : PyVal → Except PyErr (Option String) := setStrHardLen 2048

/-- EmbedFooter.icon_url setter (embed.py lines 92-96). -/
def EmbedFooter.setIconUrl : PyVal → Except PyErr (Option String) := setStrNoLimit

/-- getattr on an EmbedFooter for the keys of __items__. -/
def EmbedFooter.getattr (f : EmbedFooter) : String → PyVal
  | "text" => pyOfStr f.text
  | "icon_url" => pyOfStr f.icon_url
  | _ => PyVal.none

/-- EmbedFooter.dict, inherited from BaseSerializable. -/
def EmbedFooter.dict (f : EmbedFooter) : List (String × PyVal) :=
  pyDict f.getattr EmbedFooter.items

/-- EmbedFooter.__init__ (embed.py lines 64-72): run both setters in order. -/
def EmbedFooter.construct (text icon_url : PyVal) : Except PyErr EmbedFooter :=
  match EmbedFooter.setText text with
  | .error e => .error e
  | .ok t =>
    match EmbedFooter.setIconUrl icon_url with
    | .error e => .error e
    | .ok i => .ok ⟨t, i⟩

/-- EmbedFooter.from_dict (embed.py lines 98-108): forward the mapping
as keyword arguments; an unknown key raises TypeError. -/
def EmbedFooter.from_dict (obj : List (String × PyVal)) : Except PyErr EmbedFooter :=
  if keysAllowed EmbedFooter.items obj then
    EmbedFooter.construct (getArg obj "text") (getArg obj "icon_url")
  else .error PyErr.typeError

/-- EmbedImage.__items__ (embed.py line 118). -/
def EmbedImage.items : List String := ["url"]

/-- EmbedImage.url setter (embed.py lines 133-137). -/
def EmbedImage.setUrl : PyVal → Except PyErr (Option String) := setStrNoLimit

/-- getattr on an EmbedImage for the keys of __items__. -/
def EmbedImage.getattr (i : EmbedImage) : String → PyVal
  | "url" => pyOfStr i.url
  | _ => PyVal.none

/-- EmbedImage.dict, inherited from BaseSerializable. -/
def EmbedImage.dict (i : EmbedImage) : List (String × PyVal) :=
  pyDict i.getattr EmbedImage.items

/-- EmbedImage.__init__ (embed.py lines 120-126). -/
def EmbedImage.construct (url : PyVal) : Except PyErr EmbedImage :=
  match EmbedImage.setUrl url with
  | .error e => .error e
  | .ok u => .ok ⟨u⟩

/-- EmbedImage.from_dict (embed.py lines 139-149). -/
def EmbedImage.from_dict (obj : List (String × PyVal)) : Except PyErr EmbedImage :=
  if keysAllowed EmbedImage.items obj then
    EmbedImage.construct (getArg obj "url")
  else .error PyErr.typeError

/-- EmbedVideo.__items__ (embed.py line 162). -/
def EmbedVideo.items : List String := ["url", "height", "width"]

/-- EmbedVideo.url setter (embed.py lines 181-185). -/
def EmbedVideo.setUrl : PyVal → Except PyErr (Option String) := setStrNoLimit

/-- EmbedVideo.height setter (embed.py lines 192-196): isinstance int
check only, no sign check. -/
def EmbedVideo.setHeight : PyVal → Except PyErr (Option Int) := setIntAttr

/-- EmbedVideo.width setter (embed.py lines 203-207): isinstance int
check only, no sign check. -/
def EmbedVideo.setWidth : PyVal → Except PyErr (Option Int) := setIntAttr

/-- getattr on an EmbedVideo for the keys of __items__. -/
def EmbedVideo.getattr (v : EmbedVideo) : String → PyVal
  | "url" => pyOfStr v.url
  | "height" => pyOfInt v.height
  | "width" => pyOfInt v.width
  | _ => PyVal.none

/-- EmbedVideo.dict, inherited from BaseSerializable. -/
def EmbedVideo.dict (v : EmbedVideo) : List (String × PyVal) :=
  pyDict v.getattr EmbedVideo.items

/-- EmbedVideo.__init__ (embed.py lines 164-174). -/
def EmbedVideo.construct (url height width : PyVal) : Except PyErr EmbedVideo :=
  match EmbedVideo.setUrl url with
  | .error e => .error e
  | .ok u =>
    match EmbedVideo.setHeight height with
    | .error e => .error e
    | .ok h =>
      match EmbedVideo.setWidth width with
      | .error e => .error e
      | .ok w => .ok ⟨u, h, w⟩

/-- EmbedVideo.from_dict (embed.py lines 209-219). -/
def EmbedVideo.from_dict (obj : List (String × PyVal)) : Except PyErr EmbedVideo :=
  if keysAllowed EmbedVideo.items obj then
    EmbedVideo.construct (getArg obj "url") (getArg obj "height") (getArg obj "width")
  else .error PyErr.typeError

/-- EmbedThumbnail.__items__ (embed.py line 229). -/
def EmbedThumbnail.items : List String := ["url"]

/-- EmbedThumbnail.url setter (embed.py lines 244-248). -/
def EmbedThumbnail.setUrl : PyVal → Except PyErr (Option String) := setStrNoLimit

/-- getattr on an EmbedThumbnail for the keys of __items__. -/
def EmbedThumbnail.getattr (t : EmbedThumbnail) : String → PyVal
  | "url" => pyOfStr t.url
  | _ => PyVal.none

/-- EmbedThumbnail.dict, inherited from BaseSerializable. -/
def EmbedThumbnail.dict (t : EmbedThumbnail) : List (String × PyVal) :=
  pyDict t.getattr EmbedThumbnail.items

/-- EmbedThumbnail.__init__ (embed.py lines 231-237). -/
def EmbedThumbnail.construct (url : PyVal) : Except PyErr EmbedThumbnail :=
  match EmbedThumbnail.setUrl url with
  | .error e => .error e
  | .ok u => .ok ⟨u⟩

/-- EmbedThumbnail.from_dict (embed.py lines 250-260). -/
def EmbedThumbnail.from_dict (obj : List (String × PyVal)) : Except PyErr EmbedThumbnail :=
  if keysAllowed EmbedThumbnail.items obj then
    EmbedThumbnail.construct (getArg obj "url")
  else .error PyErr.typeError

/-- EmbedProvider.__items__ (embed.py line 272). -/
def EmbedProvider.items : List String := ["name", "url"]

/-- EmbedProvider.name setter (embed.py lines 289-293): no length check. -/
def EmbedProvider.setName : PyVal → Except PyErr (Option String) := setStrNoLimit

/-- EmbedProvider.url setter (embed.py lines 300-304). -/
def EmbedProvider.setUrl : PyVal → Except PyErr (Option String) := setStrNoLimit

/-- getattr on an EmbedProvider for the keys of __items__. -/
def EmbedProvider.getattr (p : EmbedProvider) : String → PyVal
  | "name" => pyOfStr p.name
  | "url" => pyOfStr p.url
  | _ => PyVal.none

/-- EmbedProvider.dict, inherited from BaseSerializable. -/
def EmbedProvider.dict (p : EmbedProvider) : List (String × PyVal) :=
  pyDict p.getattr EmbedProvider.items

/-- EmbedProvider.__init__ (embed.py lines 274-282). -/
def EmbedProvider.construct (name url : PyVal) : Except PyErr EmbedProvider :=
  match EmbedProvider.setName name with
  | .error e => .error e
  | .ok n =>
    match EmbedProvider.setUrl url with
    | .error e => .error e
    | .ok u => .ok ⟨n, u⟩

/-- EmbedProvider.from_dict (embed.py lines 306-316). -/
def EmbedProvider.from_dict (obj : List (String × PyVal)) : Except PyErr EmbedProvider :=
  if keysAllowed EmbedProvider.items obj then
    EmbedProvider.construct (getArg obj "name") (getArg obj "url")
  else .error PyErr.typeError

/-- EmbedAuthor.__items__ (embed.py line 328). -/
def EmbedAuthor.items : List String := ["name", "url", "icon_url"]

/-- EmbedAuthor.name setter (embed.py lines 347-353): unguarded length
check, so assigning None raises TypeError via len(None). -/
def EmbedAuthor.setName : PyVal → Except PyErr (Option String) := setStrHardLen 256

/-- EmbedAuthor.url setter (embed.py lines 360-364). -/
def EmbedAuthor.setUrl : PyVal → Except PyErr (Option String) := setStrNoLimit

/-- EmbedAuthor.icon_url setter (embed.py lines 371-375). -/
def EmbedAuthor.setIconUrl : PyVal → Except PyErr (Option String) := setStrNoLimit

/-- getattr on an EmbedAuthor for the keys of __items__. -/
def EmbedAuthor.getattr (a : EmbedAuthor) : String → PyVal
  | "name" => pyOfStr a.name
  | "url" => pyOfStr a.url
  | "icon_url" => pyOfStr a.icon_url
  | _ => PyVal.none

/-- EmbedAuthor.dict, inherited from BaseSerializable. -/
def EmbedAuthor.dict (a : EmbedAuthor) : List (String × PyVal) :=
  pyDict a.getattr EmbedAuthor.items

/-- EmbedAuthor.__init__ (embed.py lines 330-340). -/
def EmbedAuthor.construct (name url icon_url : PyVal) : Except PyErr EmbedAuthor :=
  match EmbedAuthor.setName name with
  | .error e => .error e
  | .ok n =>
    match EmbedAuthor.setUrl url with
    | .error e => .error e
    | .ok u =>
      match EmbedAuthor.setIconUrl icon_url with
      | .error e => .error e
      | .ok i => .ok ⟨n, u, i⟩

/-- EmbedAuthor.from_dict (embed.py lines 377-387). -/
def EmbedAuthor.from_dict (obj : List (String × PyVal)) : Except PyErr EmbedAuthor :=
  if keysAllowed EmbedAuthor.items obj then
    EmbedAuthor.construct (getArg obj "name") (getArg obj "url") (getArg obj "icon_url")
  else .error PyErr.typeError

/-- EmbedField.__items__ (embed.py line 398). -/
def EmbedField.items : List String := ["name", "value"]

/-- EmbedField.name setter (embed.py lines 415-421): unguarded length
check, so assigning None raises TypeError via len(None). -/
def EmbedField.setName : PyVal → Except PyErr (Option String) := setStrHardLen 256

/-- EmbedField.value setter (embed.py lines 428-434): unguarded length
check, so assigning None raises TypeError via len(None). -/
def EmbedField.setValue : PyVal → Except PyErr (Option String) := setStrHardLen 1024

/-- getattr on an EmbedField for the keys of __items__. -/
def EmbedField.getattr (f : EmbedField) : String → PyVal
  | "name" => pyOfStr f.name
  | "value" => pyOfStr f.value
  | _ => PyVal.none

/-- EmbedField.dict, inherited from BaseSerializable. -/
def EmbedField.dict (f : EmbedField) : List (String × PyVal) :=
  pyDict f.getattr EmbedField.items

/-- EmbedField.__init__ (embed.py lines 400-408). -/
def EmbedField.construct (name value : PyVal) : Except PyErr EmbedField :=
  match EmbedField.setName name with
  | .error e => .error e
  | .ok n =>
    match EmbedField.setValue value with
    | .error e => .error e
    | .ok v => .ok ⟨n, v⟩

/-- EmbedField.from_dict (embed.py lines 436-446). -/
def EmbedField.from_dict (obj : List (String × PyVal)) : Except PyErr EmbedField :=
  if keysAllowed EmbedField.items obj then
    EmbedField.construct (getArg obj "name") (getArg obj "value")
  else .error PyErr.typeError

/-- Embed.__items__ (embed.py lines 468-470). -/
def Embed.items : List String :=
  ["title", "description", "url", "timestamp", "color",
   "footer", "image", "thumbnail", "video", "provider", "author", "fields"]

/-- Embed.title setter (embed.py lines 510-516): the length check is
guarded by isinstance, so None is accepted and clears. -/
def Embed.setTitle : PyVal → Except PyErr (Option String) := setStrSoftLen 256

/-- Embed.description setter (embed.py lines 523-529): guarded length check. -/
def Embed.setDescription : PyVal → Except PyErr (Option String) := setStrSoftLen 2048

/-- Embed.url setter (embed.py lines 536-540). -/
def Embed.setUrl : PyVal → Except PyErr (Option String) := setStrNoLimit

/-- Embed.timestamp setter (embed.py lines 547-551). -/
def Embed.setTimestamp : PyVal → Except PyErr (Option Int) := setDatetimeAttr

/-- Embed.color setter (embed.py lines 558-562). -/
def Embed.setColor : PyVal → Except PyErr (Option Int) := setIntAttr

/-- Embed.footer setter (embed.py lines 569-573): None or an EmbedFooter
object; there is no mapping coercion for nested objects. -/
def Embed.setFooter : PyVal → Except PyErr (Option EmbedFooter)
  | PyVal.none => .ok Option.none
  | PyVal.footer f => .ok (some f)
  | _ => .error PyErr.typeError

/-- Embed.image setter (embed.py lines 580-584). -/
def Embed.setImage : PyVal → Except PyErr (Option EmbedImage)
  | PyVal.none => .ok Option.none
  | PyVal.image i => .ok (some i)
  | _ => .error PyErr.typeError

/-- Embed.thumbnail setter (embed.py lines 591-595). -/
def Embed.setThumbnail : PyVal → Except PyErr (Option EmbedThumbnail)
  | PyVal.none => .ok Option.none
  | PyVal.thumbnail t => .ok (some t)
  | _ => .error PyErr.typeError

/-- Embed.video setter (embed.py lines 602-606). -/
def Embed.setVideo : PyVal → Except PyErr (Option EmbedVideo)
  | PyVal.none => .ok Option.none
  | PyVal.video v => .ok (some v)
  | _ => .error PyErr.typeError

/-- Embed.provider setter (embed.py lines 613-617). -/
def Embed.setProvider : PyVal → Except PyErr (Option EmbedProvider)
  | PyVal.none => .ok Option.none
  | PyVal.provider p => .ok (some p)
  | _ => .error PyErr.typeError

/-- Embed.author setter (embed.py lines 624-628). -/
def Embed.setAuthor : PyVal → Except PyErr (Option EmbedAuthor)
  | PyVal.none => .ok Option.none
  | PyVal.author a => .ok (some a)
  | _ => .error PyErr.typeError

/-- The loop of the Embed.fields setter (embed.py lines 645-651): the
accumulator is the current content of self._fields, which the source
mutates by appending one converted element at a time; on an invalid
element it raises with the elements appended so far already stored. -/
def Embed.fieldsLoop : List PyVal → List EmbedField → (Except PyErr Unit) × List EmbedField
  | [], acc => (.ok (), acc)
  | PyVal.field f :: rest, acc => Embed.fieldsLoop rest (acc ++ [f])
  | PyVal.mapping m :: rest, acc =>
    match EmbedField.from_dict m with
    | .ok f => Embed.fieldsLoop rest (acc ++ [f])
    | .error e => (.error e, acc)
  | PyVal.none :: _, acc => (.error PyErr.typeError, acc)
  | PyVal.str _ :: _, acc => (.error PyErr.typeError, acc)
  | PyVal.int _ :: _, acc => (.error PyErr.typeError, acc)
  | PyVal.datetime _ :: _, acc => (.error PyErr.typeError, acc)
  | PyVal.footer _ :: _, acc => (.error PyErr.typeError, acc)
  | PyVal.image _ :: _, acc => (.error PyErr.typeError, acc)
  | PyVal.thumbnail _ :: _, acc => (.error PyErr.typeError, acc)
  | PyVal.video _ :: _, acc => (.error PyErr.typeError, acc)
  | PyVal.provider _ :: _, acc => (.error PyErr.typeError, acc)
  | PyVal.author _ :: _, acc => (.error PyErr.typeError, acc)
  | PyVal.list _ :: _, acc => (.error PyErr.typeError, acc)

/-- Embed.fields setter (embed.py lines 635-651).  The first component
is the raised exception (or ok), the second is the value of self._fields
afterwards: None stores the empty list; a non-list raises before
mutating; a list longer than 25 raises before mutating; otherwise
self._fields is reset to empty and rebuilt element by element, so a
failure inside the loop leaves the already-converted elements. -/
def Embed.setFields (prior : List EmbedField) (v : PyVal) : (Except PyErr Unit) × List EmbedField :=
  match v with
  | PyVal.none => (.ok (), [])
  | PyVal.list l =>
    if 25 < l.length then (.error PyErr.valueError, prior)
    else Embed.fieldsLoop l []
  | _ => (.error PyErr.typeError, prior)

/-- The fields setter as used during construction, where no prior list
exists: the value stored on success, the exception on failure. -/
def Embed.setFieldsE (v : PyVal) : Except PyErr (List EmbedField) :=
  match Embed.setFields [] v with
  | (Except.ok _, st) => .ok st
  | (Except.error e, _) => .error e

/-- getattr on an Embed for the keys of __items__; _fields is a Python
list of EmbedField objects and is read back as such. -/
def Embed.getattr (e : Embed) : String → PyVal
  | "title" => pyOfStr e.title
  | "description" => pyOfStr e.description
  | "url" => pyOfStr e.url
  | "timestamp" => pyOfDatetime e.timestamp
  | "color" => pyOfInt e.color
  | "footer" => match e.footer with | Option.none => PyVal.none | some f => PyVal.footer f
  | "image" => match e.image with | Option.none => PyVal.none | some i => PyVal.image i
  | "thumbnail" => match e.thumbnail with | Option.none => PyVal.none | some t => PyVal.thumbnail t
  | "video" => match e.video with | Option.none => PyVal.none | some v => PyVal.video v
  | "provider" => match e.provider with | Option.none => PyVal.none | some p => PyVal.provider p
  | "author" => match e.author with | Option.none => PyVal.none | some a => PyVal.author a
  | "fields" => PyVal.list (e.fields.map PyVal.field)
  | _ => PyVal.none

/-- Embed.dict, inherited from BaseSerializable (embed.py lines 35-38):
the values are the attribute objects themselves, with no recursion into
nested records. -/
def Embed.dict (e : Embed) : List (String × PyVal) :=
  pyDict e.getattr Embed.items

/-- Embed.__init__ (embed.py lines 472-503): run every setter in
declaration order. -/
def Embed.construct (title description url timestamp color footer image thumbnail video provider author fields : PyVal) : Except PyErr Embed :=
  match Embed.setTitle title with
  | .error e => .error e
  | .ok t =>
    match Embed.setDescription description with
    | .error e => .error e
    | .ok d =>
      match Embed.setUrl url with
      | .error e => .error e
      | .ok u =>
        match Embed.setTimestamp timestamp with
        | .error e => .error e
        | .ok ts =>
          match Embed.setColor color with
          | .error e => .error e
          | .ok c =>
            match Embed.setFooter footer with
            | .error e => .error e
            | .ok fo =>
              match Embed.setImage image with
              | .error e => .error e
              | .ok im =>
                match Embed.setThumbnail thumbnail with
                | .error e => .error e
                | .ok th =>
                  match Embed.setVideo video with
                  | .error e => .error e
                  | .ok vi =>
                    match Embed.setProvider provider with
                    | .error e => .error e
                    | .ok pr =>
                      match Embed.setAuthor author with
                      | .error e => .error e
                      | .ok au =>
                        match Embed.setFieldsE fields with
                        | .error e => .error e
                        | .ok fl => .ok ⟨t, d, u, ts, c, fo, im, th, vi, pr, au, fl⟩

/-- Conversion applied to one element of the list given to the fields
setter: an EmbedField is kept, a mapping goes through
EmbedField.from_dict, anything else is invalid. -/
def fieldItemConv : PyVal → Option EmbedField
  | PyVal.field f => some f
  | PyVal.mapping m =>
    match EmbedField.from_dict m with
    | .ok f => some f
    | .error _ => Option.none
  | PyVal.none => Option.none
  | PyVal.str _ => Option.none
  | PyVal.int _ => Option.none
  | PyVal.datetime _ => Option.none
  | PyVal.footer _ => Option.none
  | PyVal.image _ => Option.none
  | PyVal.thumbnail _ => Option.none
  | PyVal.video _ => Option.none
  | PyVal.provider _ => Option.none
  | PyVal.author _ => Option.none
  | PyVal.list _ => Option.none

/-- Whether an Except result is a success. -/
def exOk {α : Type} : Except PyErr α → Bool
  | .ok _ => true
  | .error _ => false

theorem lookupKey_pyDict_not_mem (get : String → PyVal) (k : String) :
    ∀ items : List String, k ∉ items → lookupKey k (pyDict get items) = Option.none := by
  intro items
  induction items with
  | nil => intro _; rfl
  | cons i rest ih =>
    intro hk
    have hki : ¬ (i = k) := fun h => hk (h ▸ List.mem_cons_self i rest)
    have hkr : k ∉ rest := fun h => hk (List.mem_cons_of_mem i h)
    cases hg : pyOptVal (get i) with
    | none => simpa [pyDict, hg] using ih hkr
    | some v => simp [pyDict, hg, lookupKey, hki, ih hkr]

theorem lookupKey_pyDict (get : String → PyVal) (k : String) :
    ∀ items : List String, items.Nodup → k ∈ items →
      lookupKey k (pyDict get items) = pyOptVal (get k) := by
  intro items
  induction items with
  | nil => intro _ hk; cases hk
  | cons i rest ih =>
    intro hnd hk
    have hnd2 := List.nodup_cons.mp hnd
    rcases List.mem_cons.mp hk with hki | hkr
    · subst hki
      cases hg : pyOptVal (get k) with
      | none => simpa [pyDict, hg] using lookupKey_pyDict_not_mem get k rest hnd2.1
      | some v => simp [pyDict, hg, lookupKey]
    · have hki : ¬ (i = k) := fun h => hnd2.1 (h ▸ hkr)
      cases hg : pyOptVal (get i) with
      | none => simpa [pyDict, hg] using ih hnd2.2 hkr
      | some v => simp [pyDict, hg, lookupKey, hki, ih hnd2.2 hkr]

theorem pyDict_keys_mem (get : String → PyVal) :
    ∀ (items : List String) (kv : String × PyVal), kv ∈ pyDict get items → kv.1 ∈ items := by
  intro items
  induction items with
  | nil => intro kv h; cases h
  | cons i rest ih =>
    intro kv h
    cases hg : pyOptVal (get i) with
    | none =>
      rw [pyDict, hg] at h
      exact List.mem_cons_of_mem i (ih kv h)
    | some v =>
      rw [pyDict, hg] at h
      rcases List.mem_cons.mp h with h1 | h2
      · subst h1; exact List.mem_cons_self i rest
      · exact List.mem_cons_of_mem i (ih kv h2)

theorem keysAllowed_of_mem (allowed : List String) :
    ∀ obj : List (String × PyVal), (∀ kv ∈ obj, kv.1 ∈ allowed) → keysAllowed allowed obj = true := by
  intro obj
  induction obj with
  | nil => intro _; rfl
  | cons kv rest ih =>
    intro h
    obtain ⟨k, v⟩ := kv
    have hk : k ∈ allowed := h (k, v) (List.mem_cons_self _ _)
    simp [keysAllowed, hk, ih fun kv2 h2 => h (kv2) (List.mem_cons_of_mem _ h2)]

theorem getArg_pyDict (get : String → PyVal) (k : String) (items : List String)
    (hnd : items.Nodup) (hk : k ∈ items) : getArg (pyDict get items) k = get k := by
  rw [getArg, lookupKey_pyDict get k items hnd hk]
  cases hg : get k <;> simp [pyOptVal]

theorem setStrNoLimit_retract (v : PyVal) (r : Option String)
    (h : setStrNoLimit v = .ok r) : setStrNoLimit (pyOfStr r) = .ok r := by
  cases v <;> simp [setStrNoLimit] at h <;> subst h <;> rfl

theorem setStrHardLen_retract (limit : Nat) (v : PyVal) (r : Option String)
    (h : setStrHardLen limit v = .ok r) : setStrHardLen limit (pyOfStr r) = .ok r := by
  cases v with
  | str s =>
    rw [setStrHardLen] at h
    by_cases hl : limit < s.length
    · rw [if_pos hl] at h; cases h
    · rw [if_neg hl] at h
      cases h
      simp [pyOfStr, setStrHardLen, hl]
  | none => cases h
  | _ => cases h

theorem setIntAttr_retract (v : PyVal) (r : Option Int)
    (h : setIntAttr v = .ok r) : setIntAttr (pyOfInt r) = .ok r := by
  cases v <;> simp [setIntAttr] at h <;> subst h <;> rfl

theorem fieldsLoop_ok (l : List PyVal) :
    ∀ acc : List EmbedField, (∀ v ∈ l, (fieldItemConv v).isSome = true) →
      Embed.fieldsLoop l acc = (.ok (), acc ++ l.filterMap fieldItemConv) := by
  induction l with
  | nil => intro acc _; simp [Embed.fieldsLoop]
  | cons v rest ih =>
    intro acc h
    have hv := h v (List.mem_cons_self v rest)
    have hrest : ∀ u ∈ rest, (fieldItemConv u).isSome = true :=
      fun u hu => h u (List.mem_cons_of_mem v hu)
    cases v
    case field f => simp [Embed.fieldsLoop, ih _ hrest, fieldItemConv]
    case mapping m =>
      cases hm : EmbedField.from_dict m with
      | error e => simp [fieldItemConv, hm] at hv
      | ok f => simp [Embed.fieldsLoop, hm, ih _ hrest, fieldItemConv]
    all_goals simp [fieldItemConv] at hv

theorem fieldsLoop_err (pre : List PyVal) :
    ∀ (acc : List EmbedField) (x : PyVal) (post : List PyVal),
      (∀ v ∈ pre, (fieldItemConv v).isSome = true) → fieldItemConv x = Option.none →
      ∃ e, Embed.fieldsLoop (pre ++ x :: post) acc = (.error e, acc ++ pre.filterMap fieldItemConv) := by
  induction pre with
  | nil =>
    intro acc x post _ hx
    cases x
    case field f => simp [fieldItemConv] at hx
    case mapping m =>
      cases hm : EmbedField.from_dict m with
      | error e => exact ⟨e, by simp [Embed.fieldsLoop, hm]⟩
      | ok f => simp [fieldItemConv, hm] at hx
    all_goals exact ⟨PyErr.typeError, by simp [Embed.fieldsLoop]⟩
  | cons v rest ih =>
    intro acc x post h hx
    have hv := h v (List.mem_cons_self v rest)
    have hrest : ∀ u ∈ rest, (fieldItemConv u).isSome = true :=
      fun u hu => h u (List.mem_cons_of_mem v hu)
    cases v
    case field f =>
      obtain ⟨e, he⟩ := ih (acc ++ [f]) x post hrest hx
      exact ⟨e, by simp [Embed.fieldsLoop, he, fieldItemConv]⟩
    case mapping m =>
      cases hm : EmbedField.from_dict m with
      | error e2 => simp [fieldItemConv, hm] at hv
      | ok f =>
        obtain ⟨e, he⟩ := ih (acc ++ [f]) x post hrest hx
        exact ⟨e, by simp [Embed.fieldsLoop, hm, he, fieldItemConv]⟩
    all_goals simp [fieldItemConv] at hv

theorem fieldsLoop_forall2 (l : List PyVal) :
    ∀ (acc res : List EmbedField), Embed.fieldsLoop l acc = (.ok (), res) →
      ∃ res2, res = acc ++ res2 ∧ List.Forall₂ (fun u f => fieldItemConv u = some f) l res2 := by
  induction l with
  | nil =>
    intro acc res h
    rw [Embed.fieldsLoop] at h
    injection h with h1 h2
    subst h2
    exact ⟨[], by simp, List.Forall₂.nil⟩
  | cons v rest ih =>
    intro acc res h
    cases v
    case field f =>
      rw [Embed.fieldsLoop] at h
      obtain ⟨res2, hres, hall⟩ := ih (acc ++ [f]) res h
      exact ⟨f :: res2, by simp [hres], List.Forall₂.cons rfl hall⟩
    case mapping m =>
      rw [Embed.fieldsLoop] at h
      cases hm : EmbedField.from_dict m with
      | error e => rw [hm] at h; simp at h
      | ok f =>
        rw [hm] at h
        obtain ⟨res2, hres, hall⟩ := ih (acc ++ [f]) res h
        refine ⟨f :: res2, by simp [hres], List.Forall₂.cons ?_ hall⟩
        simp [fieldItemConv, hm]
    all_goals (rw [Embed.fieldsLoop] at h; simp at h)

theorem footer_roundtrip (f : EmbedFooter)
    (h : ∃ a b, EmbedFooter.construct a b = .ok f) :
    EmbedFooter.from_dict (EmbedFooter.dict f) = .ok f := by
  obtain ⟨a, b, h⟩ := h
  have hkeys : keysAllowed EmbedFooter.items (EmbedFooter.dict f) = true :=
    keysAllowed_of_mem _ _ fun kv hkv => pyDict_keys_mem _ _ kv hkv
  have h1 : getArg (EmbedFooter.dict f) "text" = EmbedFooter.getattr f "text" :=
    getArg_pyDict _ _ _ (by decide) (by decide)
  have h2 : getArg (EmbedFooter.dict f) "icon_url" = EmbedFooter.getattr f "icon_url" :=
    getArg_pyDict _ _ _ (by decide) (by decide)
  simp only [EmbedFooter.from_dict, hkeys, if_true]
  rw [h1, h2]
  simp only [EmbedFooter.construct] at h
  cases ht : EmbedFooter.setText a with
  | error e => rw [ht] at h; exact Except.noConfusion h
  | ok t =>
    rw [ht] at h
    cases hi : EmbedFooter.setIconUrl b with
    | error e => rw [hi] at h; exact Except.noConfusion h
    | ok i =>
      rw [hi] at h
      have hf : EmbedFooter.mk t i = f := by injection h
      subst hf
      show EmbedFooter.construct (pyOfStr t) (pyOfStr i) = .ok ⟨t, i⟩
      have hta : EmbedFooter.setText (pyOfStr t) = .ok t := setStrHardLen_retract 2048 a t ht
      have hib : EmbedFooter.setIconUrl (pyOfStr i) = .ok i := setStrNoLimit_retract b i hi
      rw [EmbedFooter.construct, hta, hib]

theorem image_roundtrip (x : EmbedImage)
    (h : ∃ a, EmbedImage.construct a = .ok x) :
    EmbedImage.from_dict (EmbedImage.dict x) = .ok x := by
  obtain ⟨a, h⟩ := h
  have hkeys : keysAllowed EmbedImage.items (EmbedImage.dict x) = true :=
    keysAllowed_of_mem _ _ fun kv hkv => pyDict_keys_mem _ _ kv hkv
  have h1 : getArg (EmbedImage.dict x) "url" = EmbedImage.getattr x "url" :=
    getArg_pyDict _ _ _ (by decide) (by decide)
  simp only [EmbedImage.from_dict, hkeys, if_true]
  rw [h1]
  simp only [EmbedImage.construct] at h
  cases hu : EmbedImage.setUrl a with
  | error e => rw [hu] at h; exact Except.noConfusion h
  | ok u =>
    rw [hu] at h
    have hx : EmbedImage.mk u = x := by injection h
    subst hx
    show EmbedImage.construct (pyOfStr u) = .ok ⟨u⟩
    have hua : EmbedImage.setUrl (pyOfStr u) = .ok u := setStrNoLimit_retract a u hu
    rw [EmbedImage.construct, hua]

theorem thumbnail_roundtrip (x : EmbedThumbnail)
    (h : ∃ a, EmbedThumbnail.construct a = .ok x) :
    EmbedThumbnail.from_dict (EmbedThumbnail.dict x) = .ok x := by
  obtain ⟨a, h⟩ := h
  have hkeys : keysAllowed EmbedThumbnail.items (EmbedThumbnail.dict x) = true :=
    keysAllowed_of_mem _ _ fun kv hkv => pyDict_keys_mem _ _ kv hkv
  have h1 : getArg (EmbedThumbnail.dict x) "url" = EmbedThumbnail.getattr x "url" :=
    getArg_pyDict _ _ _ (by decide) (by decide)
  simp only [EmbedThumbnail.from_dict, hkeys, if_true]
  rw [h1]
  simp only [EmbedThumbnail.construct] at h
  cases hu : EmbedThumbnail.setUrl a with
  | error e => rw [hu] at h; exact Except.noConfusion h
  | ok u =>
    rw [hu] at h
    have hx : EmbedThumbnail.mk u = x := by injection h
    subst hx
    show EmbedThumbnail.construct (pyOfStr u) = .ok ⟨u⟩
    have hua : EmbedThumbnail.setUrl (pyOfStr u) = .ok u := setStrNoLimit_retract a u hu
    rw [EmbedThumbnail.construct, hua]

theorem video_roundtrip (x : EmbedVideo)
    (h : ∃ a b c, EmbedVideo.construct a b c = .ok x) :
    EmbedVideo.from_dict (EmbedVideo.dict x) = .ok x := by
  obtain ⟨a, b, c, h⟩ := h
  have hkeys : keysAllowed EmbedVideo.items (EmbedVideo.dict x) = true :=
    keysAllowed_of_mem _ _ fun kv hkv => pyDict_keys_mem _ _ kv hkv
  have h1 : getArg (EmbedVideo.dict x) "url" = EmbedVideo.getattr x "url" :=
    getArg_pyDict _ _ _ (by decide) (by decide)
  have h2 : getArg (EmbedVideo.dict x) "height" = EmbedVideo.getattr x "height" :=
    getArg_pyDict _ _ _ (by decide) (by decide)
  have h3 : getArg (EmbedVideo.dict x) "width" = EmbedVideo.getattr x "width" :=
    getArg_pyDict _ _ _ (by decide) (by decide)
  simp only [EmbedVideo.from_dict, hkeys, if_true]
  rw [h1, h2, h3]
  simp only [EmbedVideo.construct] at h
  cases hu : EmbedVideo.setUrl a with
  | error e => rw [hu] at h; exact Except.noConfusion h
  | ok u =>
    rw [hu] at h
    cases hh : EmbedVideo.setHeight b with
    | error e => rw [hh] at h; exact Except.noConfusion h
    | ok ht =>
      rw [hh] at h
      cases hw : EmbedVideo.setWidth c with
      | error e => rw [hw] at h; exact Except.noConfusion h
      | ok w =>
        rw [hw] at h
        have hx : EmbedVideo.mk u ht w = x := by injection h
        subst hx
        show EmbedVideo.construct (pyOfStr u) (pyOfInt ht) (pyOfInt w) = .ok ⟨u, ht, w⟩
        have hua : EmbedVideo.setUrl (pyOfStr u) = .ok u := setStrNoLimit_retract a u hu
        have hhb : EmbedVideo.setHeight (pyOfInt ht) = .ok ht := setIntAttr_retract b ht hh
        have hwc : EmbedVideo.setWidth (pyOfInt w) = .ok w := setIntAttr_retract c w hw
        rw [EmbedVideo.construct, hua, hhb, hwc]

theorem provider_roundtrip (x : EmbedProvider)
    (h : ∃ a b, EmbedProvider.construct a b = .ok x) :
    EmbedProvider.from_dict (EmbedProvider.dict x) = .ok x := by
  obtain ⟨a, b, h⟩ := h
  have hkeys : keysAllowed EmbedProvider.items (EmbedProvider.dict x) = true :=
    keysAllowed_of_mem _ _ fun kv hkv => pyDict_keys_mem _ _ kv hkv
  have h1 : getArg (EmbedProvider.dict x) "name" = EmbedProvider.getattr x "name" :=
    getArg_pyDict _ _ _ (by decide) (by decide)
  have h2 : getArg (EmbedProvider.dict x) "url" = EmbedProvider.getattr x "url" :=
    getArg_pyDict _ _ _ (by decide) (by decide)
  simp only [EmbedProvider.from_dict, hkeys, if_true]
  rw [h1, h2]
  simp only [EmbedProvider.construct] at h
  cases hn : EmbedProvider.setName a with
  | error e => rw [hn] at h; exact Except.noConfusion h
  | ok n =>
    rw [hn] at h
    cases hu : EmbedProvider.setUrl b with
    | error e => rw [hu] at h; exact Except.noConfusion h
    | ok u =>
      rw [hu] at h
      have hx : EmbedProvider.mk n u = x := by injection h
      subst hx
      show EmbedProvider.construct (pyOfStr n) (pyOfStr u) = .ok ⟨n, u⟩
      have hna : EmbedProvider.setName (pyOfStr n) = .ok n := setStrNoLimit_retract a n hn
      have hub : EmbedProvider.setUrl (pyOfStr u) = .ok u := setStrNoLimit_retract b u hu
      rw [EmbedProvider.construct, hna, hub]

theorem author_roundtrip (x : EmbedAuthor)
    (h : ∃ a b c, EmbedAuthor.construct a b c = .ok x) :
    EmbedAuthor.from_dict (EmbedAuthor.dict x) = .ok x := by
  obtain ⟨a, b, c, h⟩ := h
  have hkeys : keysAllowed EmbedAuthor.items (EmbedAuthor.dict x) = true :=
    keysAllowed_of_mem _ _ fun kv hkv => pyDict_keys_mem _ _ kv hkv
  have h1 : getArg (EmbedAuthor.dict x) "name" = EmbedAuthor.getattr x "name" :=
    getArg_pyDict _ _ _ (by decide) (by decide)
  have h2 : getArg (EmbedAuthor.dict x) "url" = EmbedAuthor.getattr x "url" :=
    getArg_pyDict _ _ _ (by decide) (by decide)
  have h3 : getArg (EmbedAuthor.dict x) "icon_url" = EmbedAuthor.getattr x "icon_url" :=
    getArg_pyDict _ _ _ (by decide) (by decide)
  simp only [EmbedAuthor.from_dict, hkeys, if_true]
  rw [h1, h2, h3]
  simp only [EmbedAuthor.construct] at h
  cases hn : EmbedAuthor.setName a with
  | error e => rw [hn] at h; exact Except.noConfusion h
  | ok n =>
    rw [hn] at h
    cases hu : EmbedAuthor.setUrl b with
    | error e => rw [hu] at h; exact Except.noConfusion h
    | ok u =>
      rw [hu] at h
      cases hi : EmbedAuthor.setIconUrl c with
      | error e => rw [hi] at h; exact Except.noConfusion h
      | ok i =>
        rw [hi] at h
        have hx : EmbedAuthor.mk n u i = x := by injection h
        subst hx
        show EmbedAuthor.construct (pyOfStr n) (pyOfStr u) (pyOfStr i) = .ok ⟨n, u, i⟩
        have hna : EmbedAuthor.setName (pyOfStr n) = .ok n := setStrHardLen_retract 256 a n hn
        have hub : EmbedAuthor.setUrl (pyOfStr u) = .ok u := setStrNoLimit_retract b u hu
        have hic : EmbedAuthor.setIconUrl (pyOfStr i) = .ok i := setStrNoLimit_retract c i hi
        rw [EmbedAuthor.construct, hna, hub, hic]

theorem field_roundtrip (x : EmbedField)
    (h : ∃ a b, EmbedField.construct a b = .ok x) :
    EmbedField.from_dict (EmbedField.dict x) = .ok x := by
  obtain ⟨a, b, h⟩ := h
  have hkeys : keysAllowed EmbedField.items (EmbedField.dict x) = true :=
    keysAllowed_of_mem _ _ fun kv hkv => pyDict_keys_mem _ _ kv hkv
  have h1 : getArg (EmbedField.dict x) "name" = EmbedField.getattr x "name" :=
    getArg_pyDict _ _ _ (by decide) (by decide)
  have h2 : getArg (EmbedField.dict x) "value" = EmbedField.getattr x "value" :=
    getArg_pyDict _ _ _ (by decide) (by decide)
  simp only [EmbedField.from_dict, hkeys, if_true]
  rw [h1, h2]
  simp only [EmbedField.construct] at h
  cases hn : EmbedField.setName a with
  | error e => rw [hn] at h; exact Except.noConfusion h
  | ok n =>
    rw [hn] at h
    cases hv : EmbedField.setValue b with
    | error e => rw [hv] at h; exact Except.noConfusion h
    | ok v =>
      rw [hv] at h
      have hx : EmbedField.mk n v = x := by injection h
      subst hx
      show EmbedField.construct (pyOfStr n) (pyOfStr v) = .ok ⟨n, v⟩
      have hna : EmbedField.setName (pyOfStr n) = .ok n := setStrHardLen_retract 256 a n hn
      have hvb : EmbedField.setValue (pyOfStr v) = .ok v := setStrHardLen_retract 1024 b v hv
      rw [EmbedField.construct, hna, hvb]

/-- A Field-valid mapping: both required keys map to short strings. -/
def okMap : List (String × PyVal) := [("name", PyVal.str "n"), ("value", PyVal.str "v")]

/-- The EmbedField that okMap deserializes to. -/
def okField : EmbedField := ⟨some "n", some "v"⟩

/-- A concrete valid EmbedField. -/
def exField0 : EmbedField := ⟨some "a", some "x"⟩

/-- A second concrete valid EmbedField, distinct from exField0. -/
def exField1 : EmbedField := ⟨some "b", some "y"⟩

/-- A concrete EmbedFooter with text set and icon_url absent. -/
def exFooter : EmbedFooter := ⟨some "ft", Option.none⟩

/-- A concrete Embed with a footer and one field set, everything else absent. -/
def exEmbed : Embed :=
  ⟨Option.none, Option.none, Option.none, Option.none, Option.none,
   some exFooter, Option.none, Option.none, Option.none, Option.none,
   Option.none, [exField0]⟩

/-- The Embed produced by running the constructor with every argument None. -/
def emptyEmbed : Embed :=
  ⟨Option.none, Option.none, Option.none, Option.none, Option.none,
   Option.none, Option.none, Option.none, Option.none, Option.none,
   Option.none, []⟩

/-- Stated from the specification, for comparison with the source setters:
a URL referencing http(s) or the attachment scheme.  The source performs
no such check; this definition exists only to express that fact. -/
def allowedUrlScheme (s : String) : Bool :=
  decide (s.data.take 7 = "http://".data) || decide (s.data.take 8 = "https://".data) ||
    decide (s.data.take 13 = "attachment://".data)

/-- C1 (amended): Embed.to_mapping() is shallow.  For every Embed, each
nested attribute that is present appears in the dict as the leaf record
object itself (and is omitted when absent), and the fields entry is
always present as the list of EmbedField objects, not as a sequence of
plain mappings. -/
theorem embed_dict_shallow (e : Embed) :
    lookupKey "footer" (Embed.dict e) = e.footer.map PyVal.footer ∧
    lookupKey "image" (Embed.dict e) = e.image.map PyVal.image ∧
    lookupKey "thumbnail" (Embed.dict e) = e.thumbnail.map PyVal.thumbnail ∧
    lookupKey "video" (Embed.dict e) = e.video.map PyVal.video ∧
    lookupKey "provider" (Embed.dict e) = e.provider.map PyVal.provider ∧
    lookupKey "author" (Embed.dict e) = e.author.map PyVal.author ∧
    lookupKey "fields" (Embed.dict e) = some (PyVal.list (e.fields.map PyVal.field)) := by
  obtain ⟨t, d, u, ts, c, fo, im, th, vi, pr, au, fl⟩ := e
  simp only [Embed.dict]
  refine ⟨?_, ?_, ?_, ?_, ?_, ?_, ?_⟩
  · rw [lookupKey_pyDict _ "footer" Embed.items (by decide) (by decide)]
    cases fo <;> rfl
  · rw [lookupKey_pyDict _ "image" Embed.items (by decide) (by decide)]
    cases im <;> rfl
  · rw [lookupKey_pyDict _ "thumbnail" Embed.items (by decide) (by decide)]
    cases th <;> rfl
  · rw [lookupKey_pyDict _ "video" Embed.items (by decide) (by decide)]
    cases vi <;> rfl
  · rw [lookupKey_pyDict _ "provider" Embed.items (by decide) (by decide)]
    cases pr <;> rfl
  · rw [lookupKey_pyDict _ "author" Embed.items (by decide) (by decide)]
    cases au <;> rfl
  · rw [lookupKey_pyDict _ "fields" Embed.items (by decide) (by decide)]
    rfl

/-- C1 (counterexample): on a concrete Embed whose footer is set and
whose fields hold one Field, the serialized dict stores the footer
object itself, which is not a mapping and in particular is not the
result of the footer's own to_mapping(); the fields entry is a list of
Field objects, not of mappings. -/
theorem embed_dict_shallow_cex :
    lookupKey "footer" (Embed.dict exEmbed) = some (PyVal.footer exFooter) ∧
    (PyVal.footer exFooter).isMapping = false ∧
    PyVal.footer exFooter ≠ PyVal.mapping (EmbedFooter.dict exFooter) ∧
    lookupKey "fields" (Embed.dict exEmbed) = some (PyVal.list [PyVal.field exField0]) ∧
    (PyVal.field exField0).isMapping = false :=
  ⟨rfl, rfl, fun h => PyVal.noConfusion h, rfl, rfl⟩

/-- C2 (code evaluation at the failing inputs): assigning the absent
value None to EmbedFooter.text, EmbedAuthor.name, EmbedField.name or
EmbedField.value raises TypeError, because the length check of those
setters runs len(None); consequently even the all-defaults constructor
EmbedFooter() raises.  By contrast a setter without a length check,
such as EmbedFooter.icon_url, accepts None and clears the attribute. -/
theorem absent_assignment_raises :
    EmbedFooter.setText PyVal.none = .error PyErr.typeError ∧
    EmbedAuthor.setName PyVal.none = .error PyErr.typeError ∧
    EmbedField.setName PyVal.none = .error PyErr.typeError ∧
    EmbedField.setValue PyVal.none = .error PyErr.typeError ∧
    EmbedFooter.construct PyVal.none PyVal.none = .error PyErr.typeError ∧
    EmbedFooter.setIconUrl PyVal.none = .ok Option.none :=
  ⟨rfl, rfl, rfl, rfl, rfl, rfl⟩

/-- C3 (amended): the pre-checks of the Embed.fields setter (type check
and length check) raise before mutating, leaving the prior fields value
intact; but when the setter raises on an invalid element of the list,
self._fields has already been reset and rebuilt, so it is left holding
the converted valid elements that preceded the invalid one instead of
the prior value. -/
theorem fields_setter_mutation :
    (∀ (prior : List EmbedField) (v : PyVal), v ≠ PyVal.none → (∀ l, v ≠ PyVal.list l) →
      Embed.setFields prior v = (.error PyErr.typeError, prior)) ∧
    (∀ (prior : List EmbedField) (l : List PyVal), 25 < l.length →
      Embed.setFields prior (PyVal.list l) = (.error PyErr.valueError, prior)) ∧
    (∀ (prior : List EmbedField) (pre : List PyVal) (x : PyVal) (post : List PyVal),
      (∀ u ∈ pre, (fieldItemConv u).isSome = true) → fieldItemConv x = Option.none →
      (pre ++ x :: post).length ≤ 25 →
      ∃ e, Embed.setFields prior (PyVal.list (pre ++ x :: post)) =
        (.error e, pre.filterMap fieldItemConv)) := by
  refine ⟨?_, ?_, ?_⟩
  · intro prior v h1 h2
    cases v
    case none => exact absurd rfl h1
    case list l => exact absurd rfl (h2 l)
    all_goals rfl
  · intro prior l hlen
    simp only [Embed.setFields, if_pos hlen]
  · intro prior pre x post hall hx hle
    have hlen : ¬ 25 < (pre ++ x :: post).length := not_lt.mpr hle
    obtain ⟨e, he⟩ := fieldsLoop_err pre [] x post hall hx
    refine ⟨e, ?_⟩
    simp only [Embed.setFields, if_neg hlen]
    rw [he]
    simp

/-- C3 (witness): the three cases of fields_setter_mutation applied at
concrete inputs. -/
theorem fields_setter_mutation_witness :
    Embed.setFields [exField0] (PyVal.int 7) = (.error PyErr.typeError, [exField0]) ∧
    Embed.setFields [exField0] (PyVal.list (List.replicate 26 PyVal.none)) =
      (.error PyErr.valueError, [exField0]) ∧
    (∃ e, Embed.setFields [exField0] (PyVal.list ([PyVal.field exField1] ++ PyVal.int 0 :: [])) =
      (.error e, [PyVal.field exField1].filterMap fieldItemConv)) :=
  ⟨fields_setter_mutation.1 [exField0] (PyVal.int 7)
      (fun h => PyVal.noConfusion h) (fun l h => PyVal.noConfusion h),
   fields_setter_mutation.2.1 [exField0] (List.replicate 26 PyVal.none) (by decide),
   fields_setter_mutation.2.2 [exField0] [PyVal.field exField1] (PyVal.int 0) []
      (by intro u hu; rw [List.mem_singleton] at hu; subst hu; rfl) rfl (by decide)⟩

/-- C3 (counterexample): starting from fields = [exField0], assigning a
list whose first element is the valid Field exField1 and whose second
element is the invalid value 0 raises TypeError, yet afterwards the
fields slot holds [exField1], not the prior [exField0]: the failing
assignment mutated the previously-valid state. -/
theorem fields_setter_atomic_cex :
    (Embed.setFields [exField0] (PyVal.list [PyVal.field exField1, PyVal.int 0])).1 =
      .error PyErr.typeError ∧
    (Embed.setFields [exField0] (PyVal.list [PyVal.field exField1, PyVal.int 0])).2 =
      [exField1] ∧
    [exField1] ≠ [exField0] :=
  ⟨rfl, rfl, by decide⟩

/-- C4: for every leaf record type, from_dict is a left inverse of dict
on every valid instance, where a valid instance is one obtainable from
the constructor (every reachable instance is, since every mutation runs
the same setters the constructor runs). -/
theorem leaf_roundtrip :
    (∀ x : EmbedFooter, (∃ a b, EmbedFooter.construct a b = .ok x) →
      EmbedFooter.from_dict (EmbedFooter.dict x) = .ok x) ∧
    (∀ x : EmbedImage, (∃ a, EmbedImage.construct a = .ok x) →
      EmbedImage.from_dict (EmbedImage.dict x) = .ok x) ∧
    (∀ x : EmbedThumbnail, (∃ a, EmbedThumbnail.construct a = .ok x) →
      EmbedThumbnail.from_dict (EmbedThumbnail.dict x) = .ok x) ∧
    (∀ x : EmbedVideo, (∃ a b c, EmbedVideo.construct a b c = .ok x) →
      EmbedVideo.from_dict (EmbedVideo.dict x) = .ok x) ∧
    (∀ x : EmbedProvider, (∃ a b, EmbedProvider.construct a b = .ok x) →
      EmbedProvider.from_dict (EmbedProvider.dict x) = .ok x) ∧
    (∀ x : EmbedAuthor, (∃ a b c, EmbedAuthor.construct a b c = .ok x) →
      EmbedAuthor.from_dict (EmbedAuthor.dict x) = .ok x) ∧
    (∀ x : EmbedField, (∃ a b, EmbedField.construct a b = .ok x) →
      EmbedField.from_dict (EmbedField.dict x) = .ok x) :=
  ⟨footer_roundtrip, image_roundtrip, thumbnail_roundtrip, video_roundtrip,
   provider_roundtrip, author_roundtrip, field_roundtrip⟩

/-- C4 (witness): the round trip evaluated on a concrete valid instance
of each of the seven leaf types. -/
theorem leaf_roundtrip_witness :
    EmbedFooter.from_dict (EmbedFooter.dict ⟨some "t", Option.none⟩) = .ok ⟨some "t", Option.none⟩ ∧
    EmbedImage.from_dict (EmbedImage.dict ⟨some "u"⟩) = .ok ⟨some "u"⟩ ∧
    EmbedThumbnail.from_dict (EmbedThumbnail.dict ⟨Option.none⟩) = .ok ⟨Option.none⟩ ∧
    EmbedVideo.from_dict (EmbedVideo.dict ⟨Option.none, some 5, Option.none⟩) =
      .ok ⟨Option.none, some 5, Option.none⟩ ∧
    EmbedProvider.from_dict (EmbedProvider.dict ⟨Option.none, Option.none⟩) =
      .ok ⟨Option.none, Option.none⟩ ∧
    EmbedAuthor.from_dict (EmbedAuthor.dict ⟨some "a", Option.none, Option.none⟩) =
      .ok ⟨some "a", Option.none, Option.none⟩ ∧
    EmbedField.from_dict (EmbedField.dict ⟨some "n", some "v"⟩) = .ok ⟨some "n", some "v"⟩ :=
  ⟨leaf_roundtrip.1 _ ⟨PyVal.str "t", PyVal.none, rfl⟩,
   leaf_roundtrip.2.1 _ ⟨PyVal.str "u", rfl⟩,
   leaf_roundtrip.2.2.1 _ ⟨PyVal.none, rfl⟩,
   leaf_roundtrip.2.2.2.1 _ ⟨PyVal.none, PyVal.int 5, PyVal.none, rfl⟩,
   leaf_roundtrip.2.2.2.2.1 _ ⟨PyVal.none, PyVal.none, rfl⟩,
   leaf_roundtrip.2.2.2.2.2.1 _ ⟨PyVal.str "a", PyVal.none, PyVal.none, rfl⟩,
   leaf_roundtrip.2.2.2.2.2.2 _ ⟨PyVal.str "n", PyVal.str "v", rfl⟩⟩

/-- C5 (amended): the icon_url and url setters of EmbedFooter,
EmbedImage and EmbedThumbnail accept every string whatsoever, with no
URL-scheme validation; only the runtime type is checked (non-strings
other than None raise TypeError). -/
theorem url_scheme_unchecked :
    (∀ s : String, EmbedFooter.setIconUrl (PyVal.str s) = .ok (some s)) ∧
    (∀ s : String, EmbedImage.setUrl (PyVal.str s) = .ok (some s)) ∧
    (∀ s : String, EmbedThumbnail.setUrl (PyVal.str s) = .ok (some s)) ∧
    (∀ n : Int, EmbedFooter.setIconUrl (PyVal.int n) = .error PyErr.typeError) :=
  ⟨fun _ => rfl, fun _ => rfl, fun _ => rfl, fun _ => rfl⟩

/-- C5 (counterexample): a string whose scheme is ftp, which is neither
http(s) nor an attachment scheme, is stored without complaint by the
EmbedFooter constructor. -/
theorem url_scheme_cex :
    EmbedFooter.construct (PyVal.str "t") (PyVal.str "ftp://cdn.example/icon.png") =
      .ok ⟨some "t", some "ftp://cdn.example/icon.png"⟩ ∧
    allowedUrlScheme "ftp://cdn.example/icon.png" = false :=
  ⟨rfl, by decide⟩

/-- C6 (amended): EmbedVideo.height and EmbedVideo.width accept every
integer, negative ones included; only the runtime type is checked. -/
theorem video_dims_any_int :
    (∀ n : Int, EmbedVideo.setHeight (PyVal.int n) = .ok (some n)) ∧
    (∀ n : Int, EmbedVideo.setWidth (PyVal.int n) = .ok (some n)) ∧
    (∀ s : String, EmbedVideo.setHeight (PyVal.str s) = .error PyErr.typeError) ∧
    (∀ s : String, EmbedVideo.setWidth (PyVal.str s) = .error PyErr.typeError) :=
  ⟨fun _ => rfl, fun _ => rfl, fun _ => rfl, fun _ => rfl⟩

/-- C6 (counterexample): constructing an EmbedVideo with height -1
succeeds and stores the negative value. -/
theorem video_negative_cex :
    EmbedVideo.construct PyVal.none (PyVal.int (-1)) PyVal.none =
      .ok ⟨Option.none, some (-1), Option.none⟩ ∧
    (-1 : Int) < 0 :=
  ⟨rfl, by decide⟩

/-- C7: given a list of Field-valid mappings, assigning it to
Embed.fields raises ValueError (LengthExceededError) exactly when it has
more than 25 elements and succeeds otherwise; in particular 26 fails and
25 succeeds. -/
theorem fields_limit_25 (ms : List (List (String × PyVal))) (prior : List EmbedField)
    (hall : ∀ m ∈ ms, exOk (EmbedField.from_dict m) = true) :
    (25 < ms.length →
      (Embed.setFields prior (PyVal.list (ms.map PyVal.mapping))).1 = .error PyErr.valueError) ∧
    (ms.length ≤ 25 →
      (Embed.setFields prior (PyVal.list (ms.map PyVal.mapping))).1 = .ok ()) := by
  constructor
  · intro hlen
    have hlen2 : 25 < (ms.map PyVal.mapping).length := by simpa using hlen
    simp only [Embed.setFields, if_pos hlen2]
  · intro hlen
    have hlen2 : ¬ 25 < (ms.map PyVal.mapping).length := by simpa using not_lt.mpr hlen
    have hconv : ∀ v ∈ ms.map PyVal.mapping, (fieldItemConv v).isSome = true := by
      intro v hv
      obtain ⟨m, hm, rfl⟩ := List.mem_map.mp hv
      have hok := hall m hm
      cases hfd : EmbedField.from_dict m with
      | error e => rw [hfd] at hok; exact Bool.noConfusion hok
      | ok f => simp [fieldItemConv, hfd]
    simp only [Embed.setFields, if_neg hlen2]
    rw [fieldsLoop_ok _ _ hconv]

/-- C7 (witness): 26 copies of a Field-valid mapping raise ValueError,
25 copies succeed. -/
theorem fields_limit_25_witness :
    (Embed.setFields [] (PyVal.list ((List.replicate 26 okMap).map PyVal.mapping))).1 =
      .error PyErr.valueError ∧
    (Embed.setFields [] (PyVal.list ((List.replicate 25 okMap).map PyVal.mapping))).1 = .ok () :=
  ⟨(fields_limit_25 (List.replicate 26 okMap) []
      (fun m hm => by rw [List.eq_of_mem_replicate hm]; rfl)).1 (by decide),
   (fields_limit_25 (List.replicate 25 okMap) []
      (fun m hm => by rw [List.eq_of_mem_replicate hm]; rfl)).2 (by decide)⟩

/-- C8: constructing an Embed with every argument absent succeeds, and
its serialized dict is empty except for the fields key, which maps to
the empty list. -/
theorem empty_embed_dict :
    Embed.construct PyVal.none PyVal.none PyVal.none PyVal.none PyVal.none PyVal.none
      PyVal.none PyVal.none PyVal.none PyVal.none PyVal.none PyVal.none = .ok emptyEmbed ∧
    Embed.dict emptyEmbed = [("fields", PyVal.list [])] :=
  ⟨rfl, rfl⟩

/-- C9: EmbedFooter.from_dict on a mapping holding a key that matches no
declared attribute fails (Python rejects the unexpected keyword argument
with a TypeError) and no footer is produced. -/
theorem footer_unknown_key :
    EmbedFooter.from_dict [("bogus", PyVal.int 1)] = .error PyErr.typeError :=
  rfl

/-- C10: the fields invariant.  Every Embed serializes with a "fields"
key holding the list of its EmbedField objects (so the key is present
even when everything else is absent); assigning None to fields stores
the empty list, never an absent value; and every successful list
assignment stores exactly the element-wise conversion of the input,
where a Field is kept and a mapping goes through EmbedField.from_dict,
so fields only ever holds EmbedField instances. -/
theorem fields_invariant :
    (∀ e : Embed, lookupKey "fields" (Embed.dict e) =
      some (PyVal.list (e.fields.map PyVal.field))) ∧
    (∀ prior : List EmbedField, Embed.setFields prior PyVal.none = (.ok (), [])) ∧
    (∀ (prior : List EmbedField) (l : List PyVal) (res : List EmbedField),
      Embed.setFields prior (PyVal.list l) = (.ok (), res) →
      List.Forall₂ (fun u f => fieldItemConv u = some f) l res) := by
  refine ⟨?_, fun _ => rfl, ?_⟩
  · intro e
    obtain ⟨t, d, u, ts, c, fo, im, th, vi, pr, au, fl⟩ := e
    simp only [Embed.dict]
    rw [lookupKey_pyDict _ "fields" Embed.items (by decide) (by decide)]
    rfl
  · intro prior l res h
    simp only [Embed.setFields] at h
    split at h
    · exact absurd h (by simp)
    · obtain ⟨res2, hres, hall⟩ := fieldsLoop_forall2 l [] res h
      simp only [List.nil_append] at hres
      subst hres
      exact hall

/-- C10 (witness): a successful assignment of a mapping followed by a
Field object converts element-wise. -/
theorem fields_invariant_witness :
    List.Forall₂ (fun u f => fieldItemConv u = some f)
      [PyVal.mapping okMap, PyVal.field exField0] [okField, exField0] :=
  fields_invariant.2.2 [] [PyVal.mapping okMap, PyVal.field exField0] [okField, exField0] rfl
